import Mathlib

/-!
# The GNSS location facade (`gnss/location_gnss.cpp`)

A shallow embedding of the facade table `gGnssInterface`: the static handle
`gGnssAdapter`, the lifecycle pair `initialize` / `deinitialize`, the guarded
entry points that forward to the Engine (`GnssAdapter`), and the response
message `RespMsg` that `setOptInStatus` hands to the Engine's queue.

The class `GnssAdapter`, the system-status tracker, `dlGetSymFromLib` and the
type `AGpsBearerType` are declared in headers outside `location_gnss.cpp`;
they enter the development as the fields of `Platform`.  Every action the
source file performs on them is recorded, in program order, in `World.trace`.
-/

namespace LocationGnss

/-! ## Values crossing the facade -/

/-- An object the caller hands over by pointer or by reference (a client, a
callback, an options structure, a character buffer), named by its address. -/
abbrev Obj := Nat

/-- The bit pattern of a `float` or `double` argument; it is only passed along. -/
abbrev Flt := Nat

/-- Result codes of the reporting primitive; the file uses one of them. -/
inductive LocationError
  | LOCATION_ERROR_SUCCESS
  | other (code : Nat)
  deriving DecidableEq, Repr

/-- A single argument value, used to compare what the caller gave with what
the Engine received. -/
inductive Arg
  | obj (o : Obj)
  | nat (n : Nat)
  | int (i : Int)
  | bool (b : Bool)
  | flt (f : Flt)
  | err (e : LocationError)
  deriving DecidableEq, Repr

/-- The message `struct RespMsg : public LocMsg` local to `setOptInStatus`:
it stores the session id by value. -/
structure RespMsg where
  mSessionId : Nat
  deriving DecidableEq, Repr

/-- Methods of the system-status tracker, reached as
`gGnssAdapter->getSystemStatus()->method(...)`. -/
inductive SystemStatusCall
  | eventConnectionStatus (connected : Bool) (type : Int)
  | updatePowerConnectState (charging : Bool)
  | eventOptInStatus (userConsent : Bool)
  deriving DecidableEq, Repr

/-- Every method the file invokes through `gGnssAdapter->`, with its actual
arguments. -/
inductive EngineCall
  | addClientCommand (client callbacks : Obj)
  | removeClientCommand (client rmClientCb : Obj)
  | requestCapabilitiesCommand (client : Obj)
  | startTrackingCommand (client trackingOptions : Obj)
  | updateTrackingOptionsCommand (client : Obj) (id : Nat) (trackingOptions : Obj)
  | stopTrackingCommand (client : Obj) (id : Nat)
  | gnssNiResponseCommand (client : Obj) (id : Nat) (response : Int)
  | setControlCallbacksCommand (controlCallbacks : Obj)
  | enableCommand (techType : Int)
  | disableCommand (id : Nat)
  | gnssUpdateConfigCommand (config : Obj)
  | gnssGetConfigCommand (mask : Nat)
  | gnssUpdateSvTypeConfigCommand (config : Obj)
  | gnssGetSvTypeConfigCommand (callback : Obj)
  | gnssResetSvTypeConfigCommand
  | gnssDeleteAidingDataCommand (data : Obj)
  | gnssUpdateXtraThrottleCommand (enabled : Bool)
  | injectLocationCommand (latitude longitude accuracy : Flt)
  | injectTimeCommand (time timeReference uncertainty : Int)
  | initAgpsCommand (cbInfo : Obj)
  | dataConnOpenCommand (agpsType : Int) (apnName : Obj) (apnLen : Int) (bearerType : Int)
  | dataConnClosedCommand (agpsType : Int)
  | dataConnFailedCommand (agpsType : Int)
  | getDebugReport (report : Obj)
  | getSystemStatus (method : SystemStatusCall)
  | initOdcpiCommand (callback : Obj) (priority : Int)
  | injectOdcpiCommand (location : Obj)
  | blockCPICommand (latitude longitude accuracy : Flt) (blockDurationMsec : Int)
      (latLonDiffThreshold : Flt)
  | getGnssEnergyConsumedCommand (energyConsumedCb : Obj)
  | injectLocationExtCommand (locationInfo : Obj)
  | updatePowerStateCommand (powerEvent : Int)
  | setConstrainedTuncCommand (enable : Bool) (tuncConstraint : Flt) (energyBudget : Nat)
  | setPositionAssistedClockEstimatorCommand (enable : Bool)
  | gnssUpdateSvConfigCommand (constellationEnablementConfig blacklistSvConfig : Obj)
  | configLeverArmCommand (configInfo : Obj)
  | configRobustLocationCommand (enable enableForE911 : Bool)
  | configMinGpsWeekCommand (minGpsWeek : Nat)
  | configDeadReckoningEngineParamsCommand (dreConfig : Obj)
  | gnssUpdateSecondaryBandConfigCommand (secondaryBandConfig : Obj)
  | gnssGetSecondaryBandConfigCommand
  | configEngineRunStateCommand (engType : Nat) (engState : Int)
  | configOutputNmeaTypesCommand (enabledNmeaTypes : Nat)
  | generateSessionId
  | sendMsg (msg : RespMsg)
  | reportResponse (err : LocationError) (sessionId : Nat)
  deriving DecidableEq, Repr

/-- What the file does to the world outside its own static storage. -/
inductive Event
  | construct
  | createOSFramework
  | logError
  | destroy
  | engine (c : EngineCall)
  deriving DecidableEq, Repr

/-- The one way an execution of the file's code can go wrong: `gGnssAdapter->`
evaluated while `gGnssAdapter` is `NULL`. -/
inductive Fault
  | nullDereference
  deriving DecidableEq, Repr

/-- The declarations the file takes from elsewhere.  `σ` is the state of one
`GnssAdapter` object.
* `ctor` is the state `new GnssAdapter()` yields;
* `exec c a` is the state after method call `c` on an object in state `a`,
  with the value the call returns (unused for `void` methods);
* `dtor a q` is what `delete` leaves of the pending queue `q`;
* `dlGetSymFromLib lib sym` tells whether the lookup yields a non-null symbol;
* `toAGpsBearerType` is the conversion `(AGpsBearerType)ipType`. -/
structure Platform (σ : Type) where
  ctor : σ
  exec : EngineCall → σ → σ × Nat
  dtor : σ → List RespMsg → List RespMsg
  dlGetSymFromLib : String → String → Bool
  toAGpsBearerType : Int → Int

/-- The state the file's functions run in: the static `gGnssAdapter`
(`none` is `NULL`, `some a` a live object in state `a`), the messages this file
has handed to the Engine's Dispatch Queue and that are still pending, head
first, and the record of everything done so far.  Commands the Engine builds
inside its own methods are part of its state `σ`. -/
structure World (σ : Type) where
  gGnssAdapter : Option σ
  queue : List RespMsg
  trace : List Event

variable {σ : Type}

/-- Modelled from the spec: the Dispatch Queue behind `GnssAdapter::sendMsg`
(declared in the Engine's headers, not in this file).  "`enqueue(Command)`
appends to the tail"; no other method changes the queue seen here. -/
def enqueued (c : EngineCall) (queue : List RespMsg) : List RespMsg :=
  match c with
  | .sendMsg msg => queue ++ [msg]
  | _ => queue

/-- The expression `gGnssAdapter->c`: a fault on `NULL`, otherwise the method
runs on the live object and the call is recorded. -/
def arrow (P : Platform σ) (c : EngineCall) (w : World σ) : Except Fault (World σ × Nat) :=
  match w.gGnssAdapter with
  | none => .error .nullDereference
  | some a =>
    .ok ({ gGnssAdapter := some (P.exec c a).1
           queue := enqueued c w.queue
           trace := w.trace ++ [.engine c] }, (P.exec c a).2)

/-! ## Lifecycle -/

/-- The function `createOSFrameworkInstance`. -/
def createOSFrameworkInstance (P : Platform σ) (w : World σ) : World σ :=
  if P.dlGetSymFromLib "liblocationservice_glue.so" "createOSFramework" then
    { w with trace := w.trace ++ [.createOSFramework] }
  else
    { w with trace := w.trace ++ [.logError] }

/-- The function `initialize` (its name here ends in an underscore, the bare
word being reserved in Lean). -/
def initialize_ (P : Platform σ) (w : World σ) : Except Fault (World σ) :=
  if w.gGnssAdapter.isNone then
    .ok (createOSFrameworkInstance P
      { w with gGnssAdapter := some P.ctor, trace := w.trace ++ [.construct] })
  else
    .ok w

/-- The function `deinitialize`, named like `initialize_`: `delete` on a live
handle, then the handle is cleared. -/
def deinitialize_ (P : Platform σ) (w : World σ) : Except Fault (World σ) :=
  match w.gGnssAdapter with
  | some a =>
    .ok { gGnssAdapter := none, queue := P.dtor a w.queue, trace := w.trace ++ [.destroy] }
  | none => .ok w

/-! ## Guarded entry points

Each function below is the function of the same name in the file: the test
`NULL != gGnssAdapter`, the forwarded call, and the value returned when the
handle is `NULL`. -/

/-- The function `addClient`. -/
def addClient (P : Platform σ) (client callbacks : Obj) (w : World σ) :
    Except Fault (World σ) :=
  if w.gGnssAdapter.isSome then
    (arrow P (.addClientCommand client callbacks) w).map Prod.fst
  else
    .ok w

/-- The function `removeClient`. -/
def removeClient (P : Platform σ) (client rmClientCb : Obj) (w : World σ) :
    Except Fault (World σ) :=
  if w.gGnssAdapter.isSome then
    (arrow P (.removeClientCommand client rmClientCb) w).map Prod.fst
  else
    .ok w

/-- The function `requestCapabilities`. -/
def requestCapabilities (P : Platform σ) (client : Obj) (w : World σ) :
    Except Fault (World σ) :=
  if w.gGnssAdapter.isSome then
    (arrow P (.requestCapabilitiesCommand client) w).map Prod.fst
  else
    .ok w

/-- The function `startTracking`. -/
def startTracking (P : Platform σ) (client trackingOptions : Obj) (w : World σ) :
    Except Fault (World σ × Nat) :=
  if w.gGnssAdapter.isSome then
    arrow P (.startTrackingCommand client trackingOptions) w
  else
    .ok (w, 0)

/-- The function `updateTrackingOptions`. -/
def updateTrackingOptions (P : Platform σ) (client : Obj) (id : Nat) (trackingOptions : Obj)
    (w : World σ) :
    Except Fault (World σ) :=
  if w.gGnssAdapter.isSome then
    (arrow P (.updateTrackingOptionsCommand client id trackingOptions) w).map Prod.fst
  else
    .ok w

/-- The function `stopTracking`. -/
def stopTracking (P : Platform σ) (client : Obj) (id : Nat) (w : World σ) :
    Except Fault (World σ) :=
  if w.gGnssAdapter.isSome then
    (arrow P (.stopTrackingCommand client id) w).map Prod.fst
  else
    .ok w

/-- The function `gnssNiResponse`. -/
def gnssNiResponse (P : Platform σ) (client : Obj) (id : Nat) (response : Int) (w : World σ) :
    Except Fault (World σ) :=
  if w.gGnssAdapter.isSome then
    (arrow P (.gnssNiResponseCommand client id response) w).map Prod.fst
  else
    .ok w

/-- The function `setControlCallbacks`. -/
def setControlCallbacks (P : Platform σ) (controlCallbacks : Obj) (w : World σ) :
    Except Fault (World σ) :=
  if w.gGnssAdapter.isSome then
    (arrow P (.setControlCallbacksCommand controlCallbacks) w).map Prod.fst
  else
    .ok w

/-- The function `enable`. -/
def enable (P : Platform σ) (techType : Int) (w : World σ) :
    Except Fault (World σ × Nat) :=
  if w.gGnssAdapter.isSome then
    arrow P (.enableCommand techType) w
  else
    .ok (w, 0)

/-- The function `disable`. -/
def disable (P : Platform σ) (id : Nat) (w : World σ) :
    Except Fault (World σ) :=
  if w.gGnssAdapter.isSome then
    (arrow P (.disableCommand id) w).map Prod.fst
  else
    .ok w

/-- The function `gnssUpdateConfig`. -/
def gnssUpdateConfig (P : Platform σ) (config : Obj) (w : World σ) :
    Except Fault (World σ × Nat) :=
  if w.gGnssAdapter.isSome then
    arrow P (.gnssUpdateConfigCommand config) w
  else
    .ok (w, 0)

/-- The function `gnssGetConfig`. -/
def gnssGetConfig (P : Platform σ) (mask : Nat) (w : World σ) :
    Except Fault (World σ × Nat) :=
  if w.gGnssAdapter.isSome then
    arrow P (.gnssGetConfigCommand mask) w
  else
    .ok (w, 0)

/-- The function `gnssUpdateSvTypeConfig`. -/
def gnssUpdateSvTypeConfig (P : Platform σ) (config : Obj) (w : World σ) :
    Except Fault (World σ) :=
  if w.gGnssAdapter.isSome then
    (arrow P (.gnssUpdateSvTypeConfigCommand config) w).map Prod.fst
  else
    .ok w

/-- The function `gnssGetSvTypeConfig`. -/
def gnssGetSvTypeConfig (P : Platform σ) (callback : Obj) (w : World σ) :
    Except Fault (World σ) :=
  if w.gGnssAdapter.isSome then
    (arrow P (.gnssGetSvTypeConfigCommand callback) w).map Prod.fst
  else
    .ok w

/-- The function `gnssResetSvTypeConfig`. -/
def gnssResetSvTypeConfig (P : Platform σ) (w : World σ) :
    Except Fault (World σ) :=
  if w.gGnssAdapter.isSome then
    (arrow P (.gnssResetSvTypeConfigCommand) w).map Prod.fst
  else
    .ok w

/-- The function `gnssDeleteAidingData`. -/
def gnssDeleteAidingData (P : Platform σ) (data : Obj) (w : World σ) :
    Except Fault (World σ × Nat) :=
  if w.gGnssAdapter.isSome then
    arrow P (.gnssDeleteAidingDataCommand data) w
  else
    .ok (w, 0)

/-- The function `gnssUpdateXtraThrottle`. -/
def gnssUpdateXtraThrottle (P : Platform σ) (enabled : Bool) (w : World σ) :
    Except Fault (World σ) :=
  if w.gGnssAdapter.isSome then
    (arrow P (.gnssUpdateXtraThrottleCommand enabled) w).map Prod.fst
  else
    .ok w

/-- The function `injectLocation`. -/
def injectLocation (P : Platform σ) (latitude longitude accuracy : Flt) (w : World σ) :
    Except Fault (World σ) :=
  if w.gGnssAdapter.isSome then
    (arrow P (.injectLocationCommand latitude longitude accuracy) w).map Prod.fst
  else
    .ok w

/-- The function `injectTime`. -/
def injectTime (P : Platform σ) (time timeReference uncertainty : Int) (w : World σ) :
    Except Fault (World σ) :=
  if w.gGnssAdapter.isSome then
    (arrow P (.injectTimeCommand time timeReference uncertainty) w).map Prod.fst
  else
    .ok w

/-- The function `agpsInit`. -/
def agpsInit (P : Platform σ) (cbInfo : Obj) (w : World σ) :
    Except Fault (World σ) :=
  if w.gGnssAdapter.isSome then
    (arrow P (.initAgpsCommand cbInfo) w).map Prod.fst
  else
    .ok w

/-- The function `agpsDataConnOpen`. -/
def agpsDataConnOpen (P : Platform σ) (agpsType : Int) (apnName : Obj) (apnLen ipType : Int)
    (w : World σ) :
    Except Fault (World σ) :=
  if w.gGnssAdapter.isSome then
    (arrow P
      (.dataConnOpenCommand agpsType apnName apnLen
        (P.toAGpsBearerType ipType)) w).map Prod.fst
  else
    .ok w

/-- The function `agpsDataConnClosed`. -/
def agpsDataConnClosed (P : Platform σ) (agpsType : Int) (w : World σ) :
    Except Fault (World σ) :=
  if w.gGnssAdapter.isSome then
    (arrow P (.dataConnClosedCommand agpsType) w).map Prod.fst
  else
    .ok w

/-- The function `agpsDataConnFailed`. -/
def agpsDataConnFailed (P : Platform σ) (agpsType : Int) (w : World σ) :
    Except Fault (World σ) :=
  if w.gGnssAdapter.isSome then
    (arrow P (.dataConnFailedCommand agpsType) w).map Prod.fst
  else
    .ok w

/-- The function `getDebugReport`. -/
def getDebugReport (P : Platform σ) (report : Obj) (w : World σ) :
    Except Fault (World σ) :=
  if w.gGnssAdapter.isSome then
    (arrow P (.getDebugReport report) w).map Prod.fst
  else
    .ok w

/-- The function `updateConnectionStatus`. -/
def updateConnectionStatus (P : Platform σ) (connected : Bool) (type : Int) (w : World σ) :
    Except Fault (World σ) :=
  if w.gGnssAdapter.isSome then
    (arrow P (.getSystemStatus (.eventConnectionStatus connected type)) w).map Prod.fst
  else
    .ok w

/-- The function `odcpiInit`. -/
def odcpiInit (P : Platform σ) (callback : Obj) (priority : Int) (w : World σ) :
    Except Fault (World σ) :=
  if w.gGnssAdapter.isSome then
    (arrow P (.initOdcpiCommand callback priority) w).map Prod.fst
  else
    .ok w

/-- The function `odcpiInject`. -/
def odcpiInject (P : Platform σ) (location : Obj) (w : World σ) :
    Except Fault (World σ) :=
  if w.gGnssAdapter.isSome then
    (arrow P (.injectOdcpiCommand location) w).map Prod.fst
  else
    .ok w

/-- The function `blockCPI`. -/
def blockCPI (P : Platform σ) (latitude longitude accuracy : Flt) (blockDurationMsec : Int)
    (latLonDiffThreshold : Flt) (w : World σ) : Except Fault (World σ) :=
  if w.gGnssAdapter.isSome then
    (arrow P
      (.blockCPICommand latitude longitude accuracy
        blockDurationMsec latLonDiffThreshold) w).map Prod.fst
  else
    .ok w

/-- The function `getGnssEnergyConsumed`. -/
def getGnssEnergyConsumed (P : Platform σ) (energyConsumedCb : Obj) (w : World σ) :
    Except Fault (World σ) :=
  if w.gGnssAdapter.isSome then
    (arrow P (.getGnssEnergyConsumedCommand energyConsumedCb) w).map Prod.fst
  else
    .ok w

/-- The function `injectLocationExt`. -/
def injectLocationExt (P : Platform σ) (locationInfo : Obj) (w : World σ) :
    Except Fault (World σ) :=
  if w.gGnssAdapter.isSome then
    (arrow P (.injectLocationExtCommand locationInfo) w).map Prod.fst
  else
    .ok w

/-- The function `updateBatteryStatus`. -/
def updateBatteryStatus (P : Platform σ) (charging : Bool) (w : World σ) :
    Except Fault (World σ) :=
  if w.gGnssAdapter.isSome then
    (arrow P (.getSystemStatus (.updatePowerConnectState charging)) w).map Prod.fst
  else
    .ok w

/-- The function `updatePowerState`. -/
def updatePowerState (P : Platform σ) (powerEvent : Int) (w : World σ) :
    Except Fault (World σ) :=
  if w.gGnssAdapter.isSome then
    (arrow P (.updatePowerStateCommand powerEvent) w).map Prod.fst
  else
    .ok w

/-- The function `setConstrainedTunc`. -/
def setConstrainedTunc (P : Platform σ) (enable : Bool) (tuncConstraint : Flt) (energyBudget : Nat)
    (w : World σ) :
    Except Fault (World σ × Nat) :=
  if w.gGnssAdapter.isSome then
    arrow P (.setConstrainedTuncCommand enable tuncConstraint energyBudget) w
  else
    .ok (w, 0)

/-- The function `setPositionAssistedClockEstimator`. -/
def setPositionAssistedClockEstimator (P : Platform σ) (enable : Bool) (w : World σ) :
    Except Fault (World σ × Nat) :=
  if w.gGnssAdapter.isSome then
    arrow P (.setPositionAssistedClockEstimatorCommand enable) w
  else
    .ok (w, 0)

/-- The function `gnssUpdateSvConfig`. -/
def gnssUpdateSvConfig (P : Platform σ) (constellationEnablementConfig blacklistSvConfig : Obj)
    (w : World σ) :
    Except Fault (World σ × Nat) :=
  if w.gGnssAdapter.isSome then
    arrow P (.gnssUpdateSvConfigCommand constellationEnablementConfig blacklistSvConfig) w
  else
    .ok (w, 0)

/-- The function `configLeverArm`. -/
def configLeverArm (P : Platform σ) (configInfo : Obj) (w : World σ) :
    Except Fault (World σ × Nat) :=
  if w.gGnssAdapter.isSome then
    arrow P (.configLeverArmCommand configInfo) w
  else
    .ok (w, 0)

/-- The function `configRobustLocation`. -/
def configRobustLocation (P : Platform σ) (enable enableForE911 : Bool) (w : World σ) :
    Except Fault (World σ × Nat) :=
  if w.gGnssAdapter.isSome then
    arrow P (.configRobustLocationCommand enable enableForE911) w
  else
    .ok (w, 0)

/-- The function `configMinGpsWeek`. -/
def configMinGpsWeek (P : Platform σ) (minGpsWeek : Nat) (w : World σ) :
    Except Fault (World σ × Nat) :=
  if w.gGnssAdapter.isSome then
    arrow P (.configMinGpsWeekCommand minGpsWeek) w
  else
    .ok (w, 0)

/-- The function `configDeadReckoningEngineParams`. -/
def configDeadReckoningEngineParams (P : Platform σ) (dreConfig : Obj) (w : World σ) :
    Except Fault (World σ × Nat) :=
  if w.gGnssAdapter.isSome then
    arrow P (.configDeadReckoningEngineParamsCommand dreConfig) w
  else
    .ok (w, 0)

/-- The function `gnssUpdateSecondaryBandConfig`. -/
def gnssUpdateSecondaryBandConfig (P : Platform σ) (secondaryBandConfig : Obj) (w : World σ) :
    Except Fault (World σ × Nat) :=
  if w.gGnssAdapter.isSome then
    arrow P (.gnssUpdateSecondaryBandConfigCommand secondaryBandConfig) w
  else
    .ok (w, 0)

/-- The function `gnssGetSecondaryBandConfig`. -/
def gnssGetSecondaryBandConfig (P : Platform σ) (w : World σ) :
    Except Fault (World σ × Nat) :=
  if w.gGnssAdapter.isSome then
    arrow P (.gnssGetSecondaryBandConfigCommand) w
  else
    .ok (w, 0)

/-- The function `configEngineRunState`. -/
def configEngineRunState (P : Platform σ) (engType : Nat) (engState : Int) (w : World σ) :
    Except Fault (World σ × Nat) :=
  if w.gGnssAdapter.isSome then
    arrow P (.configEngineRunStateCommand engType engState) w
  else
    .ok (w, 0)

/-- The function `configOutputNmeaTypes`. -/
def configOutputNmeaTypes (P : Platform σ) (enabledNmeaTypes : Nat) (w : World σ) :
    Except Fault (World σ × Nat) :=
  if w.gGnssAdapter.isSome then
    arrow P (.configOutputNmeaTypesCommand enabledNmeaTypes) w
  else
    .ok (w, 0)

/-- The body of `RespMsg::proc`: `gGnssAdapter->reportResponse(LOCATION_ERROR_SUCCESS,
mSessionId)`, with no test of the handle. -/
def RespMsg.proc (P : Platform σ) (m : RespMsg) (w : World σ) : Except Fault (World σ) :=
  (arrow P (.reportResponse .LOCATION_ERROR_SUCCESS m.mSessionId) w).map Prod.fst

/-- The function `setOptInStatus`. -/
def setOptInStatus (P : Platform σ) (userConsent : Bool) (w : World σ) :
    Except Fault (World σ × Nat) :=
  if w.gGnssAdapter.isSome then
    (arrow P .generateSessionId w).bind fun r1 =>
    (arrow P (.getSystemStatus (.eventOptInStatus userConsent)) r1.1).bind fun r2 =>
    (arrow P (.sendMsg (RespMsg.mk r1.2)) r2.1).bind fun r3 =>
    .ok (r3.1, r1.2)
  else
    .ok (w, 0)

/-! ## The function table -/

/-- What a facade function hands back: nothing, a `uint32_t`, or a `uint32_t*`
(`0` is `NULL`). -/
inductive Ret
  | void
  | u32 (n : Nat)
  | ptr (p : Nat)
  deriving DecidableEq, Repr

/-- A call through one slot of `gGnssInterface`, with the caller's arguments. -/
inductive FacadeCall
  | initialize_
  | deinitialize_
  | addClient (client callbacks : Obj)
  | removeClient (client rmClientCb : Obj)
  | requestCapabilities (client : Obj)
  | startTracking (client trackingOptions : Obj)
  | updateTrackingOptions (client : Obj) (id : Nat) (trackingOptions : Obj)
  | stopTracking (client : Obj) (id : Nat)
  | gnssNiResponse (client : Obj) (id : Nat) (response : Int)
  | setControlCallbacks (controlCallbacks : Obj)
  | enable (techType : Int)
  | disable (id : Nat)
  | gnssUpdateConfig (config : Obj)
  | gnssGetConfig (mask : Nat)
  | gnssUpdateSvTypeConfig (config : Obj)
  | gnssGetSvTypeConfig (callback : Obj)
  | gnssResetSvTypeConfig
  | gnssDeleteAidingData (data : Obj)
  | gnssUpdateXtraThrottle (enabled : Bool)
  | injectLocation (latitude longitude accuracy : Flt)
  | injectTime (time timeReference uncertainty : Int)
  | agpsInit (cbInfo : Obj)
  | agpsDataConnOpen (agpsType : Int) (apnName : Obj) (apnLen ipType : Int)
  | agpsDataConnClosed (agpsType : Int)
  | agpsDataConnFailed (agpsType : Int)
  | getDebugReport (report : Obj)
  | updateConnectionStatus (connected : Bool) (type : Int)
  | odcpiInit (callback : Obj) (priority : Int)
  | odcpiInject (location : Obj)
  | blockCPI (latitude longitude accuracy : Flt) (blockDurationMsec : Int)
      (latLonDiffThreshold : Flt)
  | getGnssEnergyConsumed (energyConsumedCb : Obj)
  | injectLocationExt (locationInfo : Obj)
  | updateBatteryStatus (charging : Bool)
  | updatePowerState (powerEvent : Int)
  | setConstrainedTunc (enable : Bool) (tuncConstraint : Flt) (energyBudget : Nat)
  | setPositionAssistedClockEstimator (enable : Bool)
  | gnssUpdateSvConfig (constellationEnablementConfig blacklistSvConfig : Obj)
  | configLeverArm (configInfo : Obj)
  | configRobustLocation (enable enableForE911 : Bool)
  | configMinGpsWeek (minGpsWeek : Nat)
  | configDeadReckoningEngineParams (dreConfig : Obj)
  | gnssUpdateSecondaryBandConfig (secondaryBandConfig : Obj)
  | gnssGetSecondaryBandConfig
  | configEngineRunState (engType : Nat) (engState : Int)
  | configOutputNmeaTypes (enabledNmeaTypes : Nat)
  | setOptInStatus (userConsent : Bool)
  deriving DecidableEq, Repr

/-- The table `gGnssInterface`: each slot bound to its function. -/
def gGnssInterface (P : Platform σ) (call : FacadeCall) (w : World σ) :
    Except Fault (World σ × Ret) :=
  match call with
  | .initialize_ => (initialize_ P w).map fun w1 => (w1, .void)
  | .deinitialize_ => (deinitialize_ P w).map fun w1 => (w1, .void)
  | .addClient client callbacks => (addClient P client callbacks w).map fun w1 => (w1, .void)
  | .removeClient client rmClientCb =>
    (removeClient P client rmClientCb w).map fun w1 => (w1, .void)
  | .requestCapabilities client => (requestCapabilities P client w).map fun w1 => (w1, .void)
  | .startTracking client trackingOptions =>
    (startTracking P client trackingOptions w).map fun r => (r.1, .u32 r.2)
  | .updateTrackingOptions client id trackingOptions =>
    (updateTrackingOptions P client id trackingOptions w).map fun w1 => (w1, .void)
  | .stopTracking client id => (stopTracking P client id w).map fun w1 => (w1, .void)
  | .gnssNiResponse client id response =>
    (gnssNiResponse P client id response w).map fun w1 => (w1, .void)
  | .setControlCallbacks controlCallbacks =>
    (setControlCallbacks P controlCallbacks w).map fun w1 => (w1, .void)
  | .enable techType => (enable P techType w).map fun r => (r.1, .u32 r.2)
  | .disable id => (disable P id w).map fun w1 => (w1, .void)
  | .gnssUpdateConfig config => (gnssUpdateConfig P config w).map fun r => (r.1, .ptr r.2)
  | .gnssGetConfig mask => (gnssGetConfig P mask w).map fun r => (r.1, .ptr r.2)
  | .gnssUpdateSvTypeConfig config => (gnssUpdateSvTypeConfig P config w).map fun w1 => (w1, .void)
  | .gnssGetSvTypeConfig callback => (gnssGetSvTypeConfig P callback w).map fun w1 => (w1, .void)
  | .gnssResetSvTypeConfig => (gnssResetSvTypeConfig P w).map fun w1 => (w1, .void)
  | .gnssDeleteAidingData data => (gnssDeleteAidingData P data w).map fun r => (r.1, .u32 r.2)
  | .gnssUpdateXtraThrottle enabled =>
    (gnssUpdateXtraThrottle P enabled w).map fun w1 => (w1, .void)
  | .injectLocation latitude longitude accuracy =>
    (injectLocation P latitude longitude accuracy w).map fun w1 => (w1, .void)
  | .injectTime time timeReference uncertainty =>
    (injectTime P time timeReference uncertainty w).map fun w1 => (w1, .void)
  | .agpsInit cbInfo => (agpsInit P cbInfo w).map fun w1 => (w1, .void)
  | .agpsDataConnOpen agpsType apnName apnLen ipType =>
    (agpsDataConnOpen P agpsType apnName apnLen ipType w).map fun w1 => (w1, .void)
  | .agpsDataConnClosed agpsType => (agpsDataConnClosed P agpsType w).map fun w1 => (w1, .void)
  | .agpsDataConnFailed agpsType => (agpsDataConnFailed P agpsType w).map fun w1 => (w1, .void)
  | .getDebugReport report => (getDebugReport P report w).map fun w1 => (w1, .void)
  | .updateConnectionStatus connected type =>
    (updateConnectionStatus P connected type w).map fun w1 => (w1, .void)
  | .odcpiInit callback priority => (odcpiInit P callback priority w).map fun w1 => (w1, .void)
  | .odcpiInject location => (odcpiInject P location w).map fun w1 => (w1, .void)
  | .blockCPI latitude longitude accuracy blockDurationMsec latLonDiffThreshold =>
    (blockCPI P latitude longitude accuracy blockDurationMsec latLonDiffThreshold w).map
      fun w1 => (w1, .void)
  | .getGnssEnergyConsumed energyConsumedCb =>
    (getGnssEnergyConsumed P energyConsumedCb w).map fun w1 => (w1, .void)
  | .injectLocationExt locationInfo =>
    (injectLocationExt P locationInfo w).map fun w1 => (w1, .void)
  | .updateBatteryStatus charging => (updateBatteryStatus P charging w).map fun w1 => (w1, .void)
  | .updatePowerState powerEvent => (updatePowerState P powerEvent w).map fun w1 => (w1, .void)
  | .setConstrainedTunc en tuncConstraint energyBudget =>
    (setConstrainedTunc P en tuncConstraint energyBudget w).map fun r => (r.1, .u32 r.2)
  | .setPositionAssistedClockEstimator en =>
    (setPositionAssistedClockEstimator P en w).map fun r => (r.1, .u32 r.2)
  | .gnssUpdateSvConfig constellationEnablementConfig blacklistSvConfig =>
    (gnssUpdateSvConfig P constellationEnablementConfig blacklistSvConfig w).map
      fun r => (r.1, .u32 r.2)
  | .configLeverArm configInfo => (configLeverArm P configInfo w).map fun r => (r.1, .u32 r.2)
  | .configRobustLocation en enableForE911 =>
    (configRobustLocation P en enableForE911 w).map fun r => (r.1, .u32 r.2)
  | .configMinGpsWeek minGpsWeek => (configMinGpsWeek P minGpsWeek w).map fun r => (r.1, .u32 r.2)
  | .configDeadReckoningEngineParams dreConfig =>
    (configDeadReckoningEngineParams P dreConfig w).map fun r => (r.1, .u32 r.2)
  | .gnssUpdateSecondaryBandConfig secondaryBandConfig =>
    (gnssUpdateSecondaryBandConfig P secondaryBandConfig w).map fun r => (r.1, .u32 r.2)
  | .gnssGetSecondaryBandConfig => (gnssGetSecondaryBandConfig P w).map fun r => (r.1, .u32 r.2)
  | .configEngineRunState engType engState =>
    (configEngineRunState P engType engState w).map fun r => (r.1, .u32 r.2)
  | .configOutputNmeaTypes enabledNmeaTypes =>
    (configOutputNmeaTypes P enabledNmeaTypes w).map fun r => (r.1, .u32 r.2)
  | .setOptInStatus userConsent => (setOptInStatus P userConsent w).map fun r => (r.1, .u32 r.2)

/-- The arguments the caller passed, in order. -/
def FacadeCall.args : FacadeCall → List Arg
  | .initialize_ => []
  | .deinitialize_ => []
  | .addClient client callbacks => [.obj client, .obj callbacks]
  | .removeClient client rmClientCb => [.obj client, .obj rmClientCb]
  | .requestCapabilities client => [.obj client]
  | .startTracking client trackingOptions => [.obj client, .obj trackingOptions]
  | .updateTrackingOptions client id trackingOptions => [.obj client, .nat id, .obj trackingOptions]
  | .stopTracking client id => [.obj client, .nat id]
  | .gnssNiResponse client id response => [.obj client, .nat id, .int response]
  | .setControlCallbacks controlCallbacks => [.obj controlCallbacks]
  | .enable techType => [.int techType]
  | .disable id => [.nat id]
  | .gnssUpdateConfig config => [.obj config]
  | .gnssGetConfig mask => [.nat mask]
  | .gnssUpdateSvTypeConfig config => [.obj config]
  | .gnssGetSvTypeConfig callback => [.obj callback]
  | .gnssResetSvTypeConfig => []
  | .gnssDeleteAidingData data => [.obj data]
  | .gnssUpdateXtraThrottle enabled => [.bool enabled]
  | .injectLocation latitude longitude accuracy => [.flt latitude, .flt longitude, .flt accuracy]
  | .injectTime time timeReference uncertainty => [.int time, .int timeReference, .int uncertainty]
  | .agpsInit cbInfo => [.obj cbInfo]
  | .agpsDataConnOpen agpsType apnName apnLen ipType =>
    [.int agpsType, .obj apnName, .int apnLen, .int ipType]
  | .agpsDataConnClosed agpsType => [.int agpsType]
  | .agpsDataConnFailed agpsType => [.int agpsType]
  | .getDebugReport report => [.obj report]
  | .updateConnectionStatus connected type => [.bool connected, .int type]
  | .odcpiInit callback priority => [.obj callback, .int priority]
  | .odcpiInject location => [.obj location]
  | .blockCPI latitude longitude accuracy blockDurationMsec latLonDiffThreshold =>
    [.flt latitude, .flt longitude, .flt accuracy, .int blockDurationMsec, .flt latLonDiffThreshold]
  | .getGnssEnergyConsumed energyConsumedCb => [.obj energyConsumedCb]
  | .injectLocationExt locationInfo => [.obj locationInfo]
  | .updateBatteryStatus charging => [.bool charging]
  | .updatePowerState powerEvent => [.int powerEvent]
  | .setConstrainedTunc en tuncConstraint energyBudget =>
    [.bool en, .flt tuncConstraint, .nat energyBudget]
  | .setPositionAssistedClockEstimator en => [.bool en]
  | .gnssUpdateSvConfig constellationEnablementConfig blacklistSvConfig =>
    [.obj constellationEnablementConfig, .obj blacklistSvConfig]
  | .configLeverArm configInfo => [.obj configInfo]
  | .configRobustLocation en enableForE911 => [.bool en, .bool enableForE911]
  | .configMinGpsWeek minGpsWeek => [.nat minGpsWeek]
  | .configDeadReckoningEngineParams dreConfig => [.obj dreConfig]
  | .gnssUpdateSecondaryBandConfig secondaryBandConfig => [.obj secondaryBandConfig]
  | .gnssGetSecondaryBandConfig => []
  | .configEngineRunState engType engState => [.nat engType, .int engState]
  | .configOutputNmeaTypes enabledNmeaTypes => [.nat enabledNmeaTypes]
  | .setOptInStatus userConsent => [.bool userConsent]

/-- The arguments of a tracker method, in order. -/
def SystemStatusCall.args : SystemStatusCall → List Arg
  | .eventConnectionStatus connected type => [.bool connected, .int type]
  | .updatePowerConnectState charging => [.bool charging]
  | .eventOptInStatus userConsent => [.bool userConsent]

/-- The arguments the Engine (or its tracker) received, in order. -/
def EngineCall.args : EngineCall → List Arg
  | .addClientCommand client callbacks => [.obj client, .obj callbacks]
  | .removeClientCommand client rmClientCb => [.obj client, .obj rmClientCb]
  | .requestCapabilitiesCommand client => [.obj client]
  | .startTrackingCommand client trackingOptions => [.obj client, .obj trackingOptions]
  | .updateTrackingOptionsCommand client id trackingOptions =>
    [.obj client, .nat id, .obj trackingOptions]
  | .stopTrackingCommand client id => [.obj client, .nat id]
  | .gnssNiResponseCommand client id response => [.obj client, .nat id, .int response]
  | .setControlCallbacksCommand controlCallbacks => [.obj controlCallbacks]
  | .enableCommand techType => [.int techType]
  | .disableCommand id => [.nat id]
  | .gnssUpdateConfigCommand config => [.obj config]
  | .gnssGetConfigCommand mask => [.nat mask]
  | .gnssUpdateSvTypeConfigCommand config => [.obj config]
  | .gnssGetSvTypeConfigCommand callback => [.obj callback]
  | .gnssResetSvTypeConfigCommand => []
  | .gnssDeleteAidingDataCommand data => [.obj data]
  | .gnssUpdateXtraThrottleCommand enabled => [.bool enabled]
  | .injectLocationCommand latitude longitude accuracy =>
    [.flt latitude, .flt longitude, .flt accuracy]
  | .injectTimeCommand time timeReference uncertainty =>
    [.int time, .int timeReference, .int uncertainty]
  | .initAgpsCommand cbInfo => [.obj cbInfo]
  | .dataConnOpenCommand agpsType apnName apnLen bearerType =>
    [.int agpsType, .obj apnName, .int apnLen, .int bearerType]
  | .dataConnClosedCommand agpsType => [.int agpsType]
  | .dataConnFailedCommand agpsType => [.int agpsType]
  | .getDebugReport report => [.obj report]
  | .getSystemStatus method => method.args
  | .initOdcpiCommand callback priority => [.obj callback, .int priority]
  | .injectOdcpiCommand location => [.obj location]
  | .blockCPICommand latitude longitude accuracy blockDurationMsec latLonDiffThreshold =>
    [.flt latitude, .flt longitude, .flt accuracy, .int blockDurationMsec, .flt latLonDiffThreshold]
  | .getGnssEnergyConsumedCommand energyConsumedCb => [.obj energyConsumedCb]
  | .injectLocationExtCommand locationInfo => [.obj locationInfo]
  | .updatePowerStateCommand powerEvent => [.int powerEvent]
  | .setConstrainedTuncCommand en tuncConstraint energyBudget =>
    [.bool en, .flt tuncConstraint, .nat energyBudget]
  | .setPositionAssistedClockEstimatorCommand en => [.bool en]
  | .gnssUpdateSvConfigCommand constellationEnablementConfig blacklistSvConfig =>
    [.obj constellationEnablementConfig, .obj blacklistSvConfig]
  | .configLeverArmCommand configInfo => [.obj configInfo]
  | .configRobustLocationCommand en enableForE911 => [.bool en, .bool enableForE911]
  | .configMinGpsWeekCommand minGpsWeek => [.nat minGpsWeek]
  | .configDeadReckoningEngineParamsCommand dreConfig => [.obj dreConfig]
  | .gnssUpdateSecondaryBandConfigCommand secondaryBandConfig => [.obj secondaryBandConfig]
  | .gnssGetSecondaryBandConfigCommand => []
  | .configEngineRunStateCommand engType engState => [.nat engType, .int engState]
  | .configOutputNmeaTypesCommand enabledNmeaTypes => [.nat enabledNmeaTypes]
  | .generateSessionId => []
  | .sendMsg msg => [.nat msg.mSessionId]
  | .reportResponse err sessionId => [.err err, .nat sessionId]

/-- The name of the entry point in the source. -/
def FacadeCall.name : FacadeCall → String
  | .initialize_ => "initialize"
  | .deinitialize_ => "deinitialize"
  | .addClient .. => "addClient"
  | .removeClient .. => "removeClient"
  | .requestCapabilities .. => "requestCapabilities"
  | .startTracking .. => "startTracking"
  | .updateTrackingOptions .. => "updateTrackingOptions"
  | .stopTracking .. => "stopTracking"
  | .gnssNiResponse .. => "gnssNiResponse"
  | .setControlCallbacks .. => "setControlCallbacks"
  | .enable .. => "enable"
  | .disable .. => "disable"
  | .gnssUpdateConfig .. => "gnssUpdateConfig"
  | .gnssGetConfig .. => "gnssGetConfig"
  | .gnssUpdateSvTypeConfig .. => "gnssUpdateSvTypeConfig"
  | .gnssGetSvTypeConfig .. => "gnssGetSvTypeConfig"
  | .gnssResetSvTypeConfig => "gnssResetSvTypeConfig"
  | .gnssDeleteAidingData .. => "gnssDeleteAidingData"
  | .gnssUpdateXtraThrottle .. => "gnssUpdateXtraThrottle"
  | .injectLocation .. => "injectLocation"
  | .injectTime .. => "injectTime"
  | .agpsInit .. => "agpsInit"
  | .agpsDataConnOpen .. => "agpsDataConnOpen"
  | .agpsDataConnClosed .. => "agpsDataConnClosed"
  | .agpsDataConnFailed .. => "agpsDataConnFailed"
  | .getDebugReport .. => "getDebugReport"
  | .updateConnectionStatus .. => "updateConnectionStatus"
  | .odcpiInit .. => "odcpiInit"
  | .odcpiInject .. => "odcpiInject"
  | .blockCPI .. => "blockCPI"
  | .getGnssEnergyConsumed .. => "getGnssEnergyConsumed"
  | .injectLocationExt .. => "injectLocationExt"
  | .updateBatteryStatus .. => "updateBatteryStatus"
  | .updatePowerState .. => "updatePowerState"
  | .setConstrainedTunc .. => "setConstrainedTunc"
  | .setPositionAssistedClockEstimator .. => "setPositionAssistedClockEstimator"
  | .gnssUpdateSvConfig .. => "gnssUpdateSvConfig"
  | .configLeverArm .. => "configLeverArm"
  | .configRobustLocation .. => "configRobustLocation"
  | .configMinGpsWeek .. => "configMinGpsWeek"
  | .configDeadReckoningEngineParams .. => "configDeadReckoningEngineParams"
  | .gnssUpdateSecondaryBandConfig .. => "gnssUpdateSecondaryBandConfig"
  | .gnssGetSecondaryBandConfig => "gnssGetSecondaryBandConfig"
  | .configEngineRunState .. => "configEngineRunState"
  | .configOutputNmeaTypes .. => "configOutputNmeaTypes"
  | .setOptInStatus .. => "setOptInStatus"

/-- The name of a tracker method in the source. -/
def SystemStatusCall.name : SystemStatusCall → String
  | .eventConnectionStatus .. => "eventConnectionStatus"
  | .updatePowerConnectState .. => "updatePowerConnectState"
  | .eventOptInStatus .. => "eventOptInStatus"

/-- The operation as the source writes it after `gGnssAdapter->`. -/
def EngineCall.name : EngineCall → String
  | .addClientCommand .. => "addClientCommand"
  | .removeClientCommand .. => "removeClientCommand"
  | .requestCapabilitiesCommand .. => "requestCapabilitiesCommand"
  | .startTrackingCommand .. => "startTrackingCommand"
  | .updateTrackingOptionsCommand .. => "updateTrackingOptionsCommand"
  | .stopTrackingCommand .. => "stopTrackingCommand"
  | .gnssNiResponseCommand .. => "gnssNiResponseCommand"
  | .setControlCallbacksCommand .. => "setControlCallbacksCommand"
  | .enableCommand .. => "enableCommand"
  | .disableCommand .. => "disableCommand"
  | .gnssUpdateConfigCommand .. => "gnssUpdateConfigCommand"
  | .gnssGetConfigCommand .. => "gnssGetConfigCommand"
  | .gnssUpdateSvTypeConfigCommand .. => "gnssUpdateSvTypeConfigCommand"
  | .gnssGetSvTypeConfigCommand .. => "gnssGetSvTypeConfigCommand"
  | .gnssResetSvTypeConfigCommand => "gnssResetSvTypeConfigCommand"
  | .gnssDeleteAidingDataCommand .. => "gnssDeleteAidingDataCommand"
  | .gnssUpdateXtraThrottleCommand .. => "gnssUpdateXtraThrottleCommand"
  | .injectLocationCommand .. => "injectLocationCommand"
  | .injectTimeCommand .. => "injectTimeCommand"
  | .initAgpsCommand .. => "initAgpsCommand"
  | .dataConnOpenCommand .. => "dataConnOpenCommand"
  | .dataConnClosedCommand .. => "dataConnClosedCommand"
  | .dataConnFailedCommand .. => "dataConnFailedCommand"
  | .getDebugReport .. => "getDebugReport"
  | .getSystemStatus method => "getSystemStatus()->" ++ method.name
  | .initOdcpiCommand .. => "initOdcpiCommand"
  | .injectOdcpiCommand .. => "injectOdcpiCommand"
  | .blockCPICommand .. => "blockCPICommand"
  | .getGnssEnergyConsumedCommand .. => "getGnssEnergyConsumedCommand"
  | .injectLocationExtCommand .. => "injectLocationExtCommand"
  | .updatePowerStateCommand .. => "updatePowerStateCommand"
  | .setConstrainedTuncCommand .. => "setConstrainedTuncCommand"
  | .setPositionAssistedClockEstimatorCommand .. => "setPositionAssistedClockEstimatorCommand"
  | .gnssUpdateSvConfigCommand .. => "gnssUpdateSvConfigCommand"
  | .configLeverArmCommand .. => "configLeverArmCommand"
  | .configRobustLocationCommand .. => "configRobustLocationCommand"
  | .configMinGpsWeekCommand .. => "configMinGpsWeekCommand"
  | .configDeadReckoningEngineParamsCommand .. => "configDeadReckoningEngineParamsCommand"
  | .gnssUpdateSecondaryBandConfigCommand .. => "gnssUpdateSecondaryBandConfigCommand"
  | .gnssGetSecondaryBandConfigCommand => "gnssGetSecondaryBandConfigCommand"
  | .configEngineRunStateCommand .. => "configEngineRunStateCommand"
  | .configOutputNmeaTypesCommand .. => "configOutputNmeaTypesCommand"
  | .generateSessionId => "generateSessionId"
  | .sendMsg .. => "sendMsg"
  | .reportResponse .. => "reportResponse"

/-! ## The consumer and sequences of calls -/

/-- Modelled from the spec: the Execution Context that serves the Dispatch
Queue (the Engine's message task, not in this file).  "Remove the head,
execute its effect synchronously against the Engine, then loop": at most `n`
Commands are processed, and a fault in an effect stops the loop. -/
def processN (P : Platform σ) : Nat → World σ → Except Fault (World σ)
  | 0, w => .ok w
  | n + 1, w =>
    match w.queue with
    | [] => .ok w
    | m :: rest => (m.proc P { w with queue := rest }).bind (processN P n)

/-- The calls of a list made one after the other through `gGnssInterface`,
with the values they returned. -/
def runSeq (P : Platform σ) : List FacadeCall → World σ → Except Fault (World σ × List Ret)
  | [], w => .ok (w, [])
  | c :: cs, w =>
    (gGnssInterface P c w).bind fun r =>
    (runSeq P cs r.1).map fun rs => (rs.1, r.2 :: rs.2)

/-- One `setOptInStatus` call per element of the list, in order, with the
session ids the calls returned. -/
def setOptInStatusAll (P : Platform σ) :
    List Bool → World σ → Except Fault (World σ × List Nat)
  | [], w => .ok (w, [])
  | b :: bs, w =>
    (setOptInStatus P b w).bind fun r =>
    (setOptInStatusAll P bs r.1).map fun rs => (rs.1, r.2 :: rs.2)

/-- The invocations of the reporting primitive `reportResponse` among some
events, oldest first. -/
def reports : List Event → List (LocationError × Nat)
  | [] => []
  | .engine (.reportResponse err sessionId) :: es => (err, sessionId) :: reports es
  | _ :: es => reports es

/-- The event `proc` of a message produces on a live Engine. -/
def reportOf (m : RespMsg) : Event :=
  .engine (.reportResponse .LOCATION_ERROR_SUCCESS m.mSessionId)

/-! ## The specification's vocabulary -/

namespace Spec

/-- The operations the specification lists as returning a `uint32_t`. -/
def returnsU32 : FacadeCall → Bool
  | .startTracking .. => true
  | .enable .. => true
  | .gnssDeleteAidingData .. => true
  | .setConstrainedTunc .. => true
  | .setPositionAssistedClockEstimator .. => true
  | .gnssUpdateSvConfig .. => true
  | .configLeverArm .. => true
  | .configRobustLocation .. => true
  | .configMinGpsWeek .. => true
  | .configDeadReckoningEngineParams .. => true
  | .gnssUpdateSecondaryBandConfig .. => true
  | .gnssGetSecondaryBandConfig => true
  | .configEngineRunState .. => true
  | .configOutputNmeaTypes .. => true
  | .setOptInStatus .. => true
  | _ => false

/-- The operations the specification lists as returning a pointer. -/
def returnsPtr : FacadeCall → Bool
  | .gnssUpdateConfig .. => true
  | .gnssGetConfig .. => true
  | _ => false

/-- The value an operation hands to its caller when the value behind it is
`v`: a `uint32_t`, a pointer, or nothing for a `void` operation. -/
def result (call : FacadeCall) (v : Nat) : Ret :=
  if returnsU32 call then .u32 v else if returnsPtr call then .ptr v else .void

/-- The sentinel of an operation: id `0`, the null pointer, or nothing. -/
def sentinel (call : FacadeCall) : Ret :=
  result call 0

/-- Modelled from the spec: the contract of `generateSessionId` (a method of
the Engine, not in this file), "never returning the reserved no-session value
(`0`) for a real session". -/
def SessionIdsPositive (P : Platform σ) : Prop :=
  ∀ a : σ, 0 < (P.exec .generateSessionId a).2

end Spec

namespace Spec

/-- The call succeeds and adds exactly the events `evs` to the record. -/
def Performs (P : Platform σ) (call : FacadeCall) (w : World σ) (evs : List Event) : Prop :=
  ∃ (w1 : World σ) (r : Ret), gGnssInterface P call w = .ok (w1, r) ∧ w1.trace = w.trace ++ evs

/-- The Engine operation that corresponds to an entry point, by name: the
method called like the entry point with `Command` appended.  Where the Engine
names the operation differently the pair is listed: the `agps...` and
`odcpi...` entry points, `getDebugReport`, and the two entry points served by
the tracker behind `getSystemStatus()`. -/
def correspondingOperation (entryPoint : String) : String :=
  match entryPoint with
  | "agpsInit" => "initAgpsCommand"
  | "agpsDataConnOpen" => "dataConnOpenCommand"
  | "agpsDataConnClosed" => "dataConnClosedCommand"
  | "agpsDataConnFailed" => "dataConnFailedCommand"
  | "odcpiInit" => "initOdcpiCommand"
  | "odcpiInject" => "injectOdcpiCommand"
  | "getDebugReport" => "getDebugReport"
  | "updateConnectionStatus" => "getSystemStatus()->eventConnectionStatus"
  | "updateBatteryStatus" => "getSystemStatus()->updatePowerConnectState"
  | f => f ++ "Command"

/-- "The call is forwarded unchanged to the Engine": on the live Engine in
state `a` exactly one Engine operation `c` is invoked, it is the operation
that corresponds to the entry point, it receives the caller's arguments, its
return value is what the caller gets, and the Engine stays live. -/
def ForwardedUnchanged (P : Platform σ) (call : FacadeCall) (w : World σ) (a : σ) : Prop :=
  ∃ (c : EngineCall) (w1 : World σ),
    gGnssInterface P call w = .ok (w1, result call (P.exec c a).2) ∧
    w1.trace = w.trace ++ [.engine c] ∧
    c.name = correspondingOperation call.name ∧ c.args = call.args ∧
    w1.gGnssAdapter = some (P.exec c a).1

/-- What makes `conv` the conversion to a type whose values are the integers
picked out by `holds` (the missing declaration of `AGpsBearerType`): the result
is a value of the type, and a value of the type is converted to itself. -/
structure ConvertsTo (conv : Int → Int) (holds : Int → Bool) : Prop where
  range : ∀ i, holds (conv i) = true
  preserves : ∀ i, holds i = true → conv i = i

/-- The values of a 16-bit signed integer type. -/
def isInt16 (i : Int) : Bool :=
  decide (-32768 ≤ i ∧ i < 32768)

end Spec

/-! ## A concrete platform -/

/-- An Engine whose whole state is its session counter: `generateSessionId`
increments the counter and returns it, every other method returns `0`;
teardown leaves the pending queue alone, the symbol lookup succeeds, and
`AGpsBearerType` is a 16-bit signed integer. -/
def counterPlatform : Platform Nat where
  ctor := 0
  exec c n :=
    match c with
    | .generateSessionId => (n + 1, n + 1)
    | _ => (n, 0)
  dtor _ q := q
  dlGetSymFromLib _ _ := true
  toAGpsBearerType i := (i + 32768) % 65536 - 32768

/-- The state of a process that has not called `initialize` yet. -/
def World.boot : World σ :=
  { gGnssAdapter := none, queue := [], trace := [] }

/-! ## Basic facts about the handle -/

/-- On a live Engine `gGnssAdapter->c` runs the method and records the call. -/
theorem arrow_live (P : Platform σ) (c : EngineCall) (w : World σ) (a : σ)
    (h : w.gGnssAdapter = some a) :
    arrow P c w = .ok ({ gGnssAdapter := some (P.exec c a).1
                         queue := enqueued c w.queue
                         trace := w.trace ++ [.engine c] }, (P.exec c a).2) := by
  simp [arrow, h]

/-- With no live Engine every slot of the table other than `initialize`
returns its sentinel and leaves the world exactly as it was. -/
theorem absent_call (P : Platform σ) (call : FacadeCall) (w : World σ)
    (habsent : w.gGnssAdapter = none) (hcall : call ≠ .initialize_) :
    gGnssInterface P call w = .ok (w, Spec.sentinel call) := by
  cases call <;>
    simp_all [gGnssInterface, deinitialize_, addClient, removeClient, requestCapabilities,
      startTracking, updateTrackingOptions, stopTracking, gnssNiResponse, setControlCallbacks,
      enable, disable, gnssUpdateConfig, gnssGetConfig, gnssUpdateSvTypeConfig,
      gnssGetSvTypeConfig, gnssResetSvTypeConfig, gnssDeleteAidingData, gnssUpdateXtraThrottle,
      injectLocation, injectTime, agpsInit, agpsDataConnOpen, agpsDataConnClosed,
      agpsDataConnFailed, getDebugReport, updateConnectionStatus, odcpiInit, odcpiInject,
      blockCPI, getGnssEnergyConsumed, injectLocationExt, updateBatteryStatus, updatePowerState,
      setConstrainedTunc, setPositionAssistedClockEstimator, gnssUpdateSvConfig, configLeverArm,
      configRobustLocation, configMinGpsWeek, configDeadReckoningEngineParams,
      gnssUpdateSecondaryBandConfig, gnssGetSecondaryBandConfig, configEngineRunState,
      configOutputNmeaTypes, setOptInStatus, Spec.sentinel, Spec.result, Spec.returnsU32,
      Spec.returnsPtr, Except.map]

/-- After any number of calls other than `initialize` an absent Engine is
still absent, nothing was recorded and every call returned its sentinel. -/
theorem runSeq_absent (P : Platform σ) (calls : List FacadeCall) (w : World σ)
    (habsent : w.gGnssAdapter = none) (hcalls : ∀ c ∈ calls, c ≠ .initialize_) :
    runSeq P calls w = .ok (w, calls.map Spec.sentinel) := by
  induction calls with
  | nil => rfl
  | cons c cs ih =>
    have hc : c ≠ .initialize_ := hcalls c (List.mem_cons_self c cs)
    have hcs : ∀ d ∈ cs, d ≠ .initialize_ := fun d hd => hcalls d (List.mem_cons_of_mem c hd)
    simp [runSeq, absent_call P c w habsent hc, ih hcs, Except.bind, Except.map]

/-- The guards of the table hold: no slot ever evaluates `gGnssAdapter->` on `NULL`. -/
theorem entry_points_never_fault (P : Platform σ) (call : FacadeCall) (w : World σ) :
    ∃ r, gGnssInterface P call w = .ok r := by
  obtain ⟨g, q, tr⟩ := w
  cases g <;> cases call <;> exact ⟨_, rfl⟩

/-! ## Lifecycle facts -/

theorem initialize_live (P : Platform σ) (w : World σ) (a : σ)
    (h : w.gGnssAdapter = some a) : initialize_ P w = .ok w := by
  simp [initialize_, h]

theorem initialize_absent (P : Platform σ) (w : World σ) (h : w.gGnssAdapter = none) :
    initialize_ P w = .ok (createOSFrameworkInstance P
      { w with gGnssAdapter := some P.ctor, trace := w.trace ++ [.construct] }) := by
  simp [initialize_, h]

/-- The function `createOSFrameworkInstance` touches neither the handle nor the
queue and records one event: the bring-up, or the error log when the symbol is
missing. -/
theorem createOSFrameworkInstance_frame (P : Platform σ) (w : World σ) :
    (createOSFrameworkInstance P w).gGnssAdapter = w.gGnssAdapter ∧
    (createOSFrameworkInstance P w).queue = w.queue ∧
    ((createOSFrameworkInstance P w).trace = w.trace ++ [.createOSFramework] ∨
     (createOSFrameworkInstance P w).trace = w.trace ++ [.logError]) := by
  unfold createOSFrameworkInstance
  split <;> simp

/-- After `initialize` an Engine is live, whatever the state before. -/
theorem initialize_makes_live (P : Platform σ) (w : World σ) :
    ∃ (w1 : World σ) (a : σ), initialize_ P w = .ok w1 ∧ w1.gGnssAdapter = some a := by
  cases hg : w.gGnssAdapter with
  | some a => exact ⟨w, a, initialize_live P w a hg, hg⟩
  | none =>
    exact ⟨_, P.ctor, initialize_absent P w hg,
      (createOSFrameworkInstance_frame P _).1⟩

theorem deinitialize_absent (P : Platform σ) (w : World σ) (h : w.gGnssAdapter = none) :
    deinitialize_ P w = .ok w := by
  simp [deinitialize_, h]

theorem deinitialize_live (P : Platform σ) (w : World σ) (a : σ)
    (h : w.gGnssAdapter = some a) :
    deinitialize_ P w =
      .ok { gGnssAdapter := none, queue := P.dtor a w.queue, trace := w.trace ++ [.destroy] } := by
  simp [deinitialize_, h]

/-! ## `setOptInStatus` and the consumer -/

/-- What `setOptInStatus` does on a live Engine, step by step. -/
theorem setOptInStatus_live (P : Platform σ) (userConsent : Bool) (a : σ)
    (q : List RespMsg) (tr : List Event) :
    ∃ a1 : σ,
      setOptInStatus P userConsent { gGnssAdapter := some a, queue := q, trace := tr } =
        .ok ({ gGnssAdapter := some a1
               queue := q ++ [RespMsg.mk (P.exec .generateSessionId a).2]
               trace := tr ++ [.engine .generateSessionId,
                 .engine (.getSystemStatus (.eventOptInStatus userConsent)),
                 .engine (.sendMsg (RespMsg.mk (P.exec .generateSessionId a).2))] },
             (P.exec .generateSessionId a).2) :=
  ⟨(P.exec (.sendMsg (RespMsg.mk (P.exec .generateSessionId a).2))
      (P.exec (.getSystemStatus (.eventOptInStatus userConsent))
        (P.exec .generateSessionId a).1).1).1,
    by simp [setOptInStatus, arrow, enqueued, Except.bind]⟩

/-- What `RespMsg::proc` does on a live Engine. -/
theorem proc_live (P : Platform σ) (m : RespMsg) (a : σ) (q : List RespMsg)
    (tr : List Event) :
    m.proc P { gGnssAdapter := some a, queue := q, trace := tr } =
      .ok { gGnssAdapter :=
              some (P.exec (.reportResponse .LOCATION_ERROR_SUCCESS m.mSessionId) a).1
            queue := q, trace := tr ++ [reportOf m] } := by
  simp [RespMsg.proc, arrow, enqueued, Except.map, reportOf]

theorem reports_append (xs ys : List Event) :
    reports (xs ++ ys) = reports xs ++ reports ys := by
  induction xs with
  | nil => rfl
  | cons e es ih =>
    cases e with
    | engine c => cases c <;> simp [reports, ih]
    | _ => simp [reports, ih]

theorem reports_reportOf (q : List RespMsg) :
    reports (q.map reportOf) =
      q.map fun m => (LocationError.LOCATION_ERROR_SUCCESS, m.mSessionId) := by
  induction q with
  | nil => rfl
  | cons m ms ih => simp [reports, reportOf, ih]

/-- On a live Engine the consumer empties a queue of `RespMsg`s when it is
allowed at least as many steps as the queue is long, and reports each message
once, head first. -/
theorem processN_live (P : Platform σ) (q : List RespMsg) :
    ∀ (n : Nat) (a : σ) (tr : List Event), q.length ≤ n →
      ∃ a1 : σ, processN P n { gGnssAdapter := some a, queue := q, trace := tr } =
        .ok { gGnssAdapter := some a1, queue := [], trace := tr ++ q.map reportOf } := by
  induction q with
  | nil =>
    intro n a tr _
    cases n <;> exact ⟨a, by simp [processN]⟩
  | cons m ms ih =>
    intro n a tr hn
    cases n with
    | zero => simp at hn
    | succ k =>
      have hk : ms.length ≤ k := by simpa using hn
      obtain ⟨a1, h1⟩ :=
        ih k (P.exec (.reportResponse .LOCATION_ERROR_SUCCESS m.mSessionId) a).1
          (tr ++ [reportOf m]) hk
      refine ⟨a1, ?_⟩
      simp [processN, proc_live, Except.bind, h1]

/-- A run of `setOptInStatus` calls on a live Engine appends one `RespMsg` per
call, carrying the id that call returned, and reports nothing by itself. -/
theorem setOptInStatusAll_live (P : Platform σ) (consents : List Bool) :
    ∀ (a : σ) (q : List RespMsg) (tr : List Event),
      ∃ (a1 : σ) (ids : List Nat) (evs : List Event),
        setOptInStatusAll P consents { gGnssAdapter := some a, queue := q, trace := tr } =
          .ok ({ gGnssAdapter := some a1, queue := q ++ ids.map RespMsg.mk,
                 trace := tr ++ evs }, ids) ∧
        ids.length = consents.length ∧ reports evs = [] := by
  induction consents with
  | nil =>
    intro a q tr
    exact ⟨a, [], [], by simp [setOptInStatusAll], rfl, rfl⟩
  | cons b bs ih =>
    intro a q tr
    obtain ⟨a1, h1⟩ := setOptInStatus_live P b a q tr
    obtain ⟨a2, ids, evs, h2, hlen, hrep⟩ := ih a1
      (q ++ [RespMsg.mk (P.exec .generateSessionId a).2])
      (tr ++ [.engine .generateSessionId,
        .engine (.getSystemStatus (.eventOptInStatus b)),
        .engine (.sendMsg (RespMsg.mk (P.exec .generateSessionId a).2))])
    refine ⟨a2, (P.exec .generateSessionId a).2 :: ids,
      [.engine .generateSessionId, .engine (.getSystemStatus (.eventOptInStatus b)),
        .engine (.sendMsg (RespMsg.mk (P.exec .generateSessionId a).2))] ++ evs, ?_, ?_, ?_⟩
    · simp [setOptInStatusAll, h1, h2, Except.bind, Except.map]
    · simp [hlen]
    · simp [reports_append, hrep, reports]

/-- The session ids of `counterPlatform` are never `0`. -/
theorem counterPlatform_positive : Spec.SessionIdsPositive counterPlatform := by
  intro a
  simp [counterPlatform]

/-! ## The claims -/

/-- C1: with no live Engine (`gGnssAdapter` is `NULL`), every entry point other
than `initialize`, for every argument value, returns its sentinel (`0` for the
`uint32_t` operations, the null pointer for `gnssUpdateConfig` and
`gnssGetConfig`, nothing for the `void` ones) and leaves the world untouched:
no Engine method is called, nothing is enqueued, nothing is reported and the
Engine stays absent. -/
theorem C1_absent_engine_sentinel (P : Platform σ) (call : FacadeCall) (w : World σ)
    (habsent : w.gGnssAdapter = none) (hcall : call ≠ .initialize_) :
    gGnssInterface P call w = .ok (w, Spec.sentinel call) ∧
    Spec.Performs P call w [] ∧
    (Spec.returnsU32 call = true → Spec.sentinel call = .u32 0) ∧
    (Spec.returnsPtr call = true → Spec.sentinel call = .ptr 0) ∧
    (Spec.returnsU32 call = false → Spec.returnsPtr call = false →
      Spec.sentinel call = .void) := by
  have h := absent_call P call w habsent hcall
  refine ⟨h, ⟨w, _, h, by simp⟩, ?_, ?_, ?_⟩
  · intro hu; simp [Spec.sentinel, Spec.result, hu]
  · intro hp
    cases call <;> simp_all [Spec.sentinel, Spec.result, Spec.returnsU32, Spec.returnsPtr]
  · intro hu hp; simp [Spec.sentinel, Spec.result, hu, hp]

/-- C1 at a concrete input: `startTracking` before any `initialize`. -/
theorem C1_absent_engine_sentinel_witness :
    (World.boot : World Nat).gGnssAdapter = none ∧
    FacadeCall.startTracking 1 2 ≠ FacadeCall.initialize_ ∧
    gGnssInterface counterPlatform (.startTracking 1 2) World.boot =
      .ok (World.boot, .u32 0) :=
  ⟨rfl, by simp,
    (C1_absent_engine_sentinel counterPlatform (.startTracking 1 2) World.boot rfl
      (by simp)).1⟩

/-- C2: `initialize` is idempotent.  Two calls in a row leave the state a
single call leaves; the second call, made while an instance is live, changes
nothing at all (no construction, no OS-framework bring-up, the Engine and its
state as they were).  A live Engine is kept by the first call too; an absent
one is constructed once, followed by one bring-up attempt. -/
theorem C2_initialize_idempotent (P : Platform σ) (w : World σ) :
    (initialize_ P w).bind (initialize_ P) = initialize_ P w ∧
    ∃ w1, initialize_ P w = .ok w1 ∧ initialize_ P w1 = .ok w1 ∧
      w1.gGnssAdapter.isSome = true ∧
      (∀ a, w.gGnssAdapter = some a → w1 = w) ∧
      (w.gGnssAdapter = none →
        w1.gGnssAdapter = some P.ctor ∧ w1.queue = w.queue ∧
        (w1.trace = w.trace ++ [.construct, .createOSFramework] ∨
         w1.trace = w.trace ++ [.construct, .logError])) := by
  cases hg : w.gGnssAdapter with
  | some a =>
    have h1 := initialize_live P w a hg
    refine ⟨by simp [h1, Except.bind], w, h1, h1, by simp [hg], fun _ _ => rfl, ?_⟩
    intro h; simp at h
  | none =>
    have h1 := initialize_absent P w hg
    obtain ⟨hh, hq, ht⟩ := createOSFrameworkInstance_frame P
      { w with gGnssAdapter := some P.ctor, trace := w.trace ++ [.construct] }
    have h2 := initialize_live P _ P.ctor hh
    refine ⟨by simp [h1, h2, Except.bind], _, h1, h2, by simp [hh], ?_, ?_⟩
    · intro a ha; simp at ha
    · intro _
      refine ⟨hh, hq, ?_⟩
      simpa using ht

/-- C3: `deinitialize` is idempotent.  Two calls in a row leave the state a
single call leaves; the Engine is destroyed at most once (the first call
records one destruction when an Engine was live and nothing otherwise, the
second call changes nothing), and both calls return normally. -/
theorem C3_deinitialize_idempotent (P : Platform σ) (w : World σ) :
    (deinitialize_ P w).bind (deinitialize_ P) = deinitialize_ P w ∧
    ∃ w1, deinitialize_ P w = .ok w1 ∧ deinitialize_ P w1 = .ok w1 ∧
      w1.gGnssAdapter = none ∧
      (w.gGnssAdapter = none → w1 = w) ∧
      (∀ a, w.gGnssAdapter = some a →
        w1.trace = w.trace ++ [.destroy] ∧ w1.queue = P.dtor a w.queue) := by
  cases hg : w.gGnssAdapter with
  | none =>
    have h1 := deinitialize_absent P w hg
    refine ⟨by simp [h1, Except.bind], w, h1, h1, hg, fun _ => rfl, ?_⟩
    intro a ha; simp at ha
  | some a =>
    have h1 := deinitialize_live P w a hg
    have h2 := deinitialize_absent P
      { gGnssAdapter := none, queue := P.dtor a w.queue, trace := w.trace ++ [.destroy] } rfl
    refine ⟨by simp [h1, h2, Except.bind], _, h1, h2, rfl, ?_, ?_⟩
    · intro h; simp at h
    · intro b hb
      simp at hb; subst hb
      exact ⟨rfl, rfl⟩

/-- C4: from every prior state, once `deinitialize` has returned, any sequence
of calls that contains no `initialize` returns the sentinel at every call and
leaves the world as `deinitialize` left it: no Engine method call, no enqueue,
no response delivery. -/
theorem C4_after_deinitialize (P : Platform σ) (w : World σ) (calls : List FacadeCall)
    (hcalls : ∀ c ∈ calls, c ≠ .initialize_) :
    ∃ w1, deinitialize_ P w = .ok w1 ∧ w1.gGnssAdapter = none ∧
      runSeq P calls w1 = .ok (w1, calls.map Spec.sentinel) := by
  cases hg : w.gGnssAdapter with
  | none =>
    exact ⟨w, deinitialize_absent P w hg, hg, runSeq_absent P calls w hg hcalls⟩
  | some a =>
    exact ⟨_, deinitialize_live P w a hg, rfl, runSeq_absent P calls _ rfl hcalls⟩

/-- C4 at a concrete input: a live Engine with one pending message is torn
down, then `setOptInStatus`, `deinitialize` and `gnssGetConfig` are called. -/
theorem C4_after_deinitialize_witness :
    (∀ c ∈ [FacadeCall.setOptInStatus true, FacadeCall.deinitialize_,
        FacadeCall.gnssGetConfig 3], c ≠ FacadeCall.initialize_) ∧
    ∃ w1, deinitialize_ counterPlatform
        { gGnssAdapter := some 4, queue := [RespMsg.mk 4], trace := [] } = .ok w1 ∧
      w1.gGnssAdapter = none ∧
      runSeq counterPlatform [FacadeCall.setOptInStatus true, FacadeCall.deinitialize_,
        FacadeCall.gnssGetConfig 3] w1 =
        .ok (w1, [FacadeCall.setOptInStatus true, FacadeCall.deinitialize_,
          FacadeCall.gnssGetConfig 3].map Spec.sentinel) :=
  ⟨by simp,
    C4_after_deinitialize counterPlatform
      { gGnssAdapter := some 4, queue := [RespMsg.mk 4], trace := [] }
      [FacadeCall.setOptInStatus true, FacadeCall.deinitialize_, FacadeCall.gnssGetConfig 3]
      (by simp)⟩

/-- C5: end to end for `setOptInStatus`, for an Engine whose `generateSessionId`
never yields `0`.  After `initialize`, `setOptInStatus userConsent` returns a
positive id `S`, the value `generateSessionId` issued for this call; the id is
allocated before the `RespMsg` is enqueued and is stored in it by value;
exactly one message is enqueued; and processing that message invokes
`reportResponse` exactly once, with `(LOCATION_ERROR_SUCCESS, S)`. -/
theorem C5_setOptInStatus_end_to_end (P : Platform σ) (hpos : Spec.SessionIdsPositive P)
    (w : World σ) (userConsent : Bool) :
    ∃ (w1 : World σ) (a : σ), initialize_ P w = .ok w1 ∧ w1.gGnssAdapter = some a ∧
      ∃ (w2 : World σ) (S : Nat),
        setOptInStatus P userConsent w1 = .ok (w2, S) ∧
        S = (P.exec .generateSessionId a).2 ∧ 0 < S ∧
        w2.trace = w1.trace ++ [.engine .generateSessionId,
          .engine (.getSystemStatus (.eventOptInStatus userConsent)),
          .engine (.sendMsg (RespMsg.mk S))] ∧
        w2.queue = w1.queue ++ [RespMsg.mk S] ∧
        ∃ w3 : World σ, RespMsg.proc P (RespMsg.mk S) w2 = .ok w3 ∧
          w3.trace = w2.trace ++ [.engine (.reportResponse .LOCATION_ERROR_SUCCESS S)] ∧
          reports (w3.trace.drop w2.trace.length) = [(.LOCATION_ERROR_SUCCESS, S)] := by
  obtain ⟨w1, a, h1, ha⟩ := initialize_makes_live P w
  obtain ⟨g, q, tr⟩ := w1
  simp only at ha
  subst ha
  obtain ⟨a1, h2⟩ := setOptInStatus_live P userConsent a q tr
  refine ⟨_, a, h1, rfl, _, _, h2, rfl, hpos a, rfl, rfl, _, proc_live P _ a1 _ _, rfl, ?_⟩
  simp [reports]

/-- C5 at a concrete input: the counter Engine, a fresh process, consent given. -/
theorem C5_setOptInStatus_end_to_end_witness :
    Spec.SessionIdsPositive counterPlatform ∧
    ∃ (w1 : World Nat) (a : Nat),
      initialize_ counterPlatform World.boot = .ok w1 ∧ w1.gGnssAdapter = some a ∧
      ∃ (w2 : World Nat) (S : Nat),
        setOptInStatus counterPlatform true w1 = .ok (w2, S) ∧
        S = (counterPlatform.exec .generateSessionId a).2 ∧ 0 < S ∧
        w2.trace = w1.trace ++ [.engine .generateSessionId,
          .engine (.getSystemStatus (.eventOptInStatus true)),
          .engine (.sendMsg (RespMsg.mk S))] ∧
        w2.queue = w1.queue ++ [RespMsg.mk S] ∧
        ∃ w3 : World Nat, RespMsg.proc counterPlatform (RespMsg.mk S) w2 = .ok w3 ∧
          w3.trace = w2.trace ++ [.engine (.reportResponse .LOCATION_ERROR_SUCCESS S)] ∧
          reports (w3.trace.drop w2.trace.length) = [(.LOCATION_ERROR_SUCCESS, S)] :=
  ⟨counterPlatform_positive,
    C5_setOptInStatus_end_to_end counterPlatform counterPlatform_positive World.boot true⟩

/-- On the counter platform `(AGpsBearerType)` is the conversion to a 16-bit
signed integer. -/
theorem counterPlatform_converts :
    Spec.ConvertsTo counterPlatform.toAGpsBearerType Spec.isInt16 := by
  constructor
  · intro i
    simp only [counterPlatform, Spec.isInt16, decide_eq_true_eq]
    omega
  · intro i hi
    simp only [Spec.isInt16, decide_eq_true_eq] at hi
    simp only [counterPlatform]
    omega

/-- C6, as stated, fails in two places.  `setOptInStatus` on a live Engine
invokes three Engine operations (`generateSessionId`, the tracker method
`eventOptInStatus`, `sendMsg`), not one corresponding operation.  And where
`AGpsBearerType` is narrower than `int` (16 bits on the counter platform),
`agpsDataConnOpen` hands the Engine a converted `ipType`: the caller's `70000`
arrives as `4464`. -/
theorem C6_counterexample_not_forwarded :
    gGnssInterface counterPlatform (.setOptInStatus true)
        { gGnssAdapter := some 0, queue := [], trace := [] } =
      .ok ({ gGnssAdapter := some 1, queue := [RespMsg.mk 1],
             trace := [.engine .generateSessionId,
               .engine (.getSystemStatus (.eventOptInStatus true)),
               .engine (.sendMsg (RespMsg.mk 1))] }, .u32 1) ∧
    ¬ Spec.ForwardedUnchanged counterPlatform (.setOptInStatus true)
        { gGnssAdapter := some 0, queue := [], trace := [] } 0 ∧
    gGnssInterface counterPlatform (.agpsDataConnOpen 1 0 0 70000)
        { gGnssAdapter := some 0, queue := [], trace := [] } =
      .ok ({ gGnssAdapter := some 0, queue := [],
             trace := [.engine (.dataConnOpenCommand 1 0 0 4464)] }, .void) ∧
    ¬ Spec.ForwardedUnchanged counterPlatform (.agpsDataConnOpen 1 0 0 70000)
        { gGnssAdapter := some 0, queue := [], trace := [] } 0 := by
  have h : gGnssInterface counterPlatform (.setOptInStatus true)
        { gGnssAdapter := some 0, queue := [], trace := [] } =
      .ok ({ gGnssAdapter := some 1, queue := [RespMsg.mk 1],
             trace := [.engine .generateSessionId,
               .engine (.getSystemStatus (.eventOptInStatus true)),
               .engine (.sendMsg (RespMsg.mk 1))] }, .u32 1) := rfl
  have g : gGnssInterface counterPlatform (.agpsDataConnOpen 1 0 0 70000)
        { gGnssAdapter := some 0, queue := [], trace := [] } =
      .ok ({ gGnssAdapter := some 0, queue := [],
             trace := [.engine (.dataConnOpenCommand 1 0 0 4464)] }, .void) := rfl
  refine ⟨h, ?_, g, ?_⟩
  · rintro ⟨c, w1, h1, h2, -, -, -⟩
    rw [h] at h1
    injection h1 with h1
    injection h1 with h1 _
    subst h1
    simp at h2
  · rintro ⟨c, w1, h1, h2, -, h3, -⟩
    rw [g] at h1
    injection h1 with h1
    injection h1 with h1 _
    subst h1
    simp at h2
    subst h2
    simp [EngineCall.args, FacadeCall.args] at h3

/-- C6, amended: with a live Engine every entry point other than `initialize`,
`deinitialize` and `setOptInStatus` invokes exactly one Engine operation, the
one that corresponds to it by name (for `updateConnectionStatus` and
`updateBatteryStatus`, a method of the tracker reached through
`getSystemStatus()`), returns what that operation returns and leaves the
Engine live and the queue as it was.  The caller's arguments arrive unmodified;
for `agpsDataConnOpen` the Engine receives `(AGpsBearerType)ipType`, which is
`ipType` itself whenever `ipType` is a value of `AGpsBearerType`.
`setOptInStatus` is not a plain forward: it calls `generateSessionId`, the
tracker's `eventOptInStatus(userConsent)` and `sendMsg(RespMsg(id))`, and
returns the generated id. -/
theorem C6_forwarded_when_live (P : Platform σ) (holds : Int → Bool)
    (hconv : Spec.ConvertsTo P.toAGpsBearerType holds)
    (call : FacadeCall) (w : World σ) (a : σ)
    (hlive : w.gGnssAdapter = some a) (hinit : call ≠ .initialize_)
    (hdeinit : call ≠ .deinitialize_) :
    ((∀ userConsent, call ≠ .setOptInStatus userConsent) →
      ∃ (c : EngineCall) (w1 : World σ),
        gGnssInterface P call w = .ok (w1, Spec.result call (P.exec c a).2) ∧
        w1.gGnssAdapter = some (P.exec c a).1 ∧ w1.queue = w.queue ∧
        w1.trace = w.trace ++ [.engine c] ∧
        c.name = Spec.correspondingOperation call.name ∧
        ((∀ agpsType apnName apnLen ipType,
            call ≠ .agpsDataConnOpen agpsType apnName apnLen ipType) →
          c.args = call.args) ∧
        (∀ agpsType apnName apnLen ipType,
          call = .agpsDataConnOpen agpsType apnName apnLen ipType →
          c = .dataConnOpenCommand agpsType apnName apnLen (P.toAGpsBearerType ipType) ∧
          (holds ipType = true → c.args = call.args))) ∧
    ((∀ userConsent, call ≠ .setOptInStatus userConsent) →
      (∀ agpsType apnName apnLen ipType,
        call = .agpsDataConnOpen agpsType apnName apnLen ipType → holds ipType = true) →
      Spec.ForwardedUnchanged P call w a) ∧
    (∀ userConsent, call = .setOptInStatus userConsent →
      ∃ w1 : World σ,
        gGnssInterface P call w = .ok (w1, .u32 (P.exec .generateSessionId a).2) ∧
        w1.gGnssAdapter.isSome = true ∧
        w1.trace = w.trace ++
          [.engine .generateSessionId,
           .engine (.getSystemStatus (.eventOptInStatus userConsent)),
           .engine (.sendMsg (RespMsg.mk (P.exec .generateSessionId a).2))]) := by
  obtain ⟨g, q, tr⟩ := w
  simp only at hlive
  subst hlive
  cases call
  case initialize_ => exact absurd rfl hinit
  case deinitialize_ => exact absurd rfl hdeinit
  case setOptInStatus b =>
    refine ⟨fun h => absurd rfl (h b), fun h => absurd rfl (h b), ?_⟩
    intro b1 h
    cases h
    exact ⟨_, rfl, rfl, by simp⟩
  case agpsDataConnOpen t n l i =>
    refine ⟨fun _ => ⟨_, _, rfl, rfl, rfl, rfl, (by rfl),
      fun h => absurd rfl (h t n l i), ?_⟩, ?_, fun _ h => (by cases h)⟩
    · intro t1 n1 l1 i1 h
      cases h
      refine ⟨rfl, fun hi => ?_⟩
      simp [EngineCall.args, FacadeCall.args, hconv.preserves i hi]
    · intro _ hin
      have hi : P.toAGpsBearerType i = i := hconv.preserves i (hin t n l i rfl)
      refine ⟨_, _, rfl, rfl, (by rfl), ?_, rfl⟩
      simp [EngineCall.args, FacadeCall.args, hi]
  all_goals
    exact ⟨fun _ => ⟨_, _, rfl, rfl, rfl, rfl, (by rfl), fun _ => rfl,
        fun _ _ _ _ h => (by cases h)⟩,
      fun _ _ => ⟨_, _, rfl, rfl, (by rfl), rfl, rfl⟩, fun _ h => (by cases h)⟩

/-- C6 amended, at a concrete input: `agpsDataConnOpen` with `ipType = 3`, a
value of the 16-bit `AGpsBearerType` of the counter platform, on a live Engine. -/
theorem C6_forwarded_when_live_witness :
    Spec.ConvertsTo counterPlatform.toAGpsBearerType Spec.isInt16 ∧
    Spec.ForwardedUnchanged counterPlatform (.agpsDataConnOpen 1 0 0 3)
      { gGnssAdapter := some 5, queue := [], trace := [] } 5 :=
  ⟨counterPlatform_converts,
    (C6_forwarded_when_live counterPlatform Spec.isInt16 counterPlatform_converts
      (.agpsDataConnOpen 1 0 0 3)
      { gGnssAdapter := some 5, queue := [], trace := [] } 5 rfl (by simp) (by simp)).2.1
      (by simp) (by
        intro t n l i h
        cases h
        decide)⟩

/-- C9: `RespMsg::proc` evaluates `gGnssAdapter->reportResponse(...)` without
testing the handle.  Processed while no Engine is live it faults with a null
dereference, whatever the message, the pending queue and the history, and the
consumer stops with that fault; this happens when `deinitialize` runs between
`setOptInStatus` and the processing of its message and teardown leaves the
queue in place (the last equation, on the counter Engine).  Every entry point,
in contrast, returns normally in the same state. -/
theorem C9_proc_faults_without_engine (P : Platform σ) (m : RespMsg) (q : List RespMsg)
    (tr : List Event) :
    m.proc P { gGnssAdapter := none, queue := q, trace := tr } = .error .nullDereference ∧
    processN P 1 { gGnssAdapter := none, queue := m :: q, trace := tr } =
      .error .nullDereference ∧
    (∀ call, ∃ r, gGnssInterface P call { gGnssAdapter := none, queue := q, trace := tr } =
      .ok r) ∧
    ((initialize_ counterPlatform World.boot).bind fun w1 =>
      (setOptInStatus counterPlatform true w1).bind fun r =>
      (deinitialize_ counterPlatform r.1).bind fun w3 =>
      processN counterPlatform 1 w3) = .error .nullDereference :=
  ⟨rfl, rfl, fun call => entry_points_never_fault P call _, rfl⟩

/-- C10: for every list of `n` consents, `n` calls of `setOptInStatus` on a live
Engine append `n` messages to the tail of the queue, one per call and in call
order, each carrying the id its call returned, and report nothing themselves.
Processing the queue from the head then empties it without a fault and invokes
`reportResponse` once per message in queue order: first for the messages that
were pending before, then for the `n` new ones, the `k`-th of them with
`(LOCATION_ERROR_SUCCESS, id returned by the k-th call)`. -/
theorem C10_reports_in_fifo_order (P : Platform σ) (w : World σ) (a : σ)
    (hlive : w.gGnssAdapter = some a) (consents : List Bool) :
    ∃ (w1 : World σ) (ids : List Nat),
      setOptInStatusAll P consents w = .ok (w1, ids) ∧
      ids.length = consents.length ∧
      w1.queue = w.queue ++ ids.map RespMsg.mk ∧
      reports (w1.trace.drop w.trace.length) = [] ∧
      ∃ w2 : World σ, processN P w1.queue.length w1 = .ok w2 ∧
        w2.queue = [] ∧
        w2.trace = w1.trace ++ (w.queue ++ ids.map RespMsg.mk).map reportOf ∧
        reports (w2.trace.drop w1.trace.length) =
          (w.queue.map fun m => (LocationError.LOCATION_ERROR_SUCCESS, m.mSessionId)) ++
            ids.map fun id => (LocationError.LOCATION_ERROR_SUCCESS, id) := by
  obtain ⟨g, q, tr⟩ := w
  simp only at hlive
  subst hlive
  obtain ⟨a1, ids, evs, h1, hlen, hrep⟩ := setOptInStatusAll_live P consents a q tr
  obtain ⟨a2, h2⟩ :=
    processN_live P (q ++ ids.map RespMsg.mk) (q ++ ids.map RespMsg.mk).length
      a1 (tr ++ evs) le_rfl
  refine ⟨_, ids, h1, hlen, rfl, by simpa using hrep, _, h2, rfl, rfl, ?_⟩
  rw [List.drop_left, reports_reportOf, List.map_append, List.map_map]
  rfl

/-- C10 at a concrete input: three calls on a live counter Engine with an empty
queue. -/
theorem C10_reports_in_fifo_order_witness :
    ∃ (w1 : World Nat) (ids : List Nat),
      setOptInStatusAll counterPlatform [true, false, true]
        { gGnssAdapter := some 0, queue := [], trace := [] } = .ok (w1, ids) ∧
      ids.length = [true, false, true].length ∧
      w1.queue = [] ++ ids.map RespMsg.mk ∧
      reports (w1.trace.drop ([] : List Event).length) = [] ∧
      ∃ w2 : World Nat, processN counterPlatform w1.queue.length w1 = .ok w2 ∧
        w2.queue = [] ∧
        w2.trace = w1.trace ++ ([] ++ ids.map RespMsg.mk).map reportOf ∧
        reports (w2.trace.drop w1.trace.length) =
          (([] : List RespMsg).map fun m =>
              (LocationError.LOCATION_ERROR_SUCCESS, m.mSessionId)) ++
            ids.map fun id => (LocationError.LOCATION_ERROR_SUCCESS, id) :=
  C10_reports_in_fifo_order counterPlatform
    { gGnssAdapter := some 0, queue := [], trace := [] } 0 rfl [true, false, true]

end LocationGnss
